import Mathlib

/-!
Shallow embedding of the statista-challenge query dispatch and result-ranking
layer, translated from the Python sources:

* `src/app/retriever/constants.py` — numeric and string constants;
* `src/app/retriever/views.py`     — the pydantic `Document`, `QueryRequest`
  and `QueryResponse` models;
* `src/app/errors.py`              — the application error taxonomy;
* `src/app/retriever/embedding.py` — `EmbeddingService.encode_query`;
* `src/app/retriever/search.py`    — `ElasticsearchService` (query-body
  builders, `_execute_search` and the three strategy entry points);
* `src/app/server.py`              — the `forward_context` dispatcher.

External collaborators (the sentence-transformer model, the Elasticsearch
client, `datetime.fromisoformat`, the clocks) are modelled as parameters of
an `Env` record: a function that either returns a value or raises stands for
each of them.  Numbers that the Python code handles as floats (scores, the
boost factor, durations) are modelled as exact rationals: no claim depends
on floating-point rounding, only on which values are passed through where.
-/

deriving instance DecidableEq for Except

namespace Statista

/-- Python's `str.strip()` with no argument (for the ASCII whitespace the
claims exercise): drop whitespace characters from both ends.  Defined over
the character list so that it evaluates by kernel reduction. -/
def pyStrip (s : String) : String :=
  ⟨((s.data.dropWhile Char.isWhitespace).reverse.dropWhile Char.isWhitespace).reverse⟩

/-! Constants from `src/app/retriever/constants.py`. -/

def SEARCH_TYPE_SEMANTIC : String := "semantic"

def SEARCH_TYPE_KEYWORD : String := "keyword"

def SEARCH_TYPE_HYBRID : String := "hybrid"

/-- The keys of the `SEARCH_TYPES` dict in `src/app/server.py` (which agree
with `constants.SEARCH_TYPES`), in insertion order, as produced by
`list(SEARCH_TYPES.keys())`. -/
def SEARCH_TYPES_KEYS : List String :=
  [SEARCH_TYPE_SEMANTIC, SEARCH_TYPE_KEYWORD, SEARCH_TYPE_HYBRID]

def DEFAULT_SEARCH_LIMIT : Nat := 5

def TITLE_WEIGHT : Nat := 3

def SUBJECT_WEIGHT : Nat := 2

def MINIMUM_SHOULD_MATCH : String := "50%"

def DEFAULT_NUM_CANDIDATES : Nat := 100

def HYBRID_KNN_CANDIDATES : Nat := 50

def HYBRID_BOOST_FACTOR : ℚ := 2

/-! Application error taxonomy from `src/app/errors.py`.  Each leaf class of
the `BaseError` hierarchy that the dispatch/normalization layer can raise is
one constructor; `InvalidSearchTypeError.__init__` stores the offending value
and the valid list in its `context`, so that constructor carries them. -/

inductive AppError where
  | configuration
  /-- The class `ElasticsearchConnectionError` — the spec calls it `BackendUnavailableError`. -/
  | elasticsearchConnection
  /-- The class `ElasticsearchQueryError` — the spec calls it `BackendQueryError`. -/
  | elasticsearchQuery
  | invalidSearchType (provided : String) (valid : List String)
  | emptyQuery
  | modelLoad
  | embeddingGeneration
  /-- The class `DataConversionError` — declared in `src/app/errors.py` and never raised
  anywhere in the repository. -/
  | dataConversion
deriving DecidableEq

/-- The `error_code` class attribute of each error class in `src/app/errors.py`. -/
def AppError.error_code : AppError → String
  | .configuration => "configuration_error"
  | .elasticsearchConnection => "elasticsearch_connection_error"
  | .elasticsearchQuery => "elasticsearch_query_error"
  | .invalidSearchType _ _ => "invalid_search_type"
  | .emptyQuery => "empty_query"
  | .modelLoad => "model_load_error"
  | .embeddingGeneration => "embedding_generation_error"
  | .dataConversion => "data_conversion_error"

/-- Exceptions that can escape a step of the per-hit normalization loop in
`ElasticsearchService._execute_search`: a `KeyError` from a direct dict
access, a `pydantic.ValidationError` from the `Document(**doc_copy)` call, or
one of the application's own `BaseError` subclasses. -/
inductive PyExn where
  | keyError (key : String)
  | validationError
  | appError (e : AppError)
deriving DecidableEq

/-- A JSON-ish scalar as it appears in an Elasticsearch `_source` mapping:
the fields the backend stores are strings or numbers. -/
inductive JValue where
  | str (s : String)
  | num (q : ℚ)
deriving DecidableEq

/-- A Python `datetime` value as the normalizer can produce it:
`parsed iso` is the result of a successful `datetime.fromisoformat(iso)`
call, `now` is `datetime.now()` (substituted when parsing fails), and
`fromTimestamp q` is pydantic's coercion of a numeric source value. -/
inductive PyDate where
  | parsed (iso : String)
  | now
  | fromTimestamp (q : ℚ)
deriving DecidableEq

/-- Python `str(v)` on a `_source` scalar (also pydantic v1's coercion of a
scalar into a `str` field).  The decimal rendering of a non-integral number
is approximated; no theorem depends on it. -/
def pyStr : JValue → String
  | .str s => s
  | .num q => if q.den = 1 then toString q.num else toString q

/-- The pydantic `Document` model from `src/app/retriever/views.py`. -/
structure Document where
  id : String
  title : String
  subject : String
  description : String
  link : String
  date : PyDate
  teaser_image_url : String
  similarity_score : Option ℚ := none
deriving DecidableEq

/-- The pydantic `QueryRequest` model from `src/app/retriever/views.py`
(field defaults as in the source). -/
structure QueryRequest where
  query : String
  limit : Nat := DEFAULT_SEARCH_LIMIT
  search_type : String := SEARCH_TYPE_HYBRID
deriving DecidableEq

/-- The pydantic field constraints of `QueryRequest`: `query` has
`min_length = 1`, `limit` has `ge = 1` and `le = 100`. -/
def QueryRequest.fieldConstraintsOk (r : QueryRequest) : Prop :=
  1 ≤ r.query.length ∧ 1 ≤ r.limit ∧ r.limit ≤ 100

instance (r : QueryRequest) : Decidable r.fieldConstraintsOk := by
  unfold QueryRequest.fieldConstraintsOk; infer_instance

/-- The pydantic `QueryResponse` model from `src/app/retriever/views.py`. -/
structure QueryResponse where
  results : List Document
  query : String
  search_type : String
  search_engine : String := "elasticsearch"
  timestamp : PyDate
  execution_time_ms : ℚ
deriving DecidableEq

/-! The Elasticsearch query bodies built in `src/app/retriever/search.py`,
as an abstract syntax of the dict literals the three strategies construct. -/

/-- The `multi_match` dict literal (shared shape of `es_text_search` and the
first `should` clause of `es_hybrid_search_bool`).  `matchType` stands for
the `"type"` key and `op` for the `"operator"` key. -/
structure MultiMatchClause where
  query : String
  fields : List String
  matchType : String
  op : String
  minimum_should_match : String
deriving DecidableEq

/-- A `knn` dict literal (`es_vector_search` puts one at the top level of the
body without a `boost` key; `es_hybrid_search_bool` puts one with a `boost`
key inside the `should` list). -/
structure KnnClause where
  field : String
  query_vector : List ℚ
  k : Nat
  num_candidates : Nat
  boost : Option ℚ := none
deriving DecidableEq

/-- A clause of the `should` list of the hybrid bool query. -/
inductive ShouldClause where
  | multiMatch (mm : MultiMatchClause)
  | knnClause (kn : KnnClause)
deriving DecidableEq

/-- The value of the `"query"` key of a body: either a bare `multi_match`
(text search) or a `bool`/`should` combination (hybrid search). -/
inductive TopQuery where
  | multiMatch (mm : MultiMatchClause)
  | boolShould (should : List ShouldClause)
deriving DecidableEq

/-- A whole Elasticsearch query body: the `_source` projection and `size`
from `_get_base_query_body`, plus the optional `"query"` and top-level
`"knn"` keys added by the strategy builders. -/
structure QueryBody where
  source_fields : List String
  size : Nat
  query : Option TopQuery := none
  knn : Option KnnClause := none
deriving DecidableEq

/-- Model of `ElasticsearchService._get_base_query_body` from `src/app/retriever/search.py`. -/
def get_base_query_body (k : Nat) : QueryBody :=
  { source_fields :=
      ["id", "title", "subject", "description", "link", "date", "teaser_image_url"],
    size := k }

/-- The query body built by `ElasticsearchService.es_text_search` (the field
strings are the f-strings `f"title^{TITLE_WEIGHT}"` and
`f"subject^{SUBJECT_WEIGHT}"` of the source). -/
def es_text_body (query : String) (k : Nat) : QueryBody :=
  { get_base_query_body k with
    query := some (.multiMatch
      { query := query,
        fields :=
          ["title^" ++ toString TITLE_WEIGHT,
           "subject^" ++ toString SUBJECT_WEIGHT,
           "description"],
        matchType := "best_fields",
        op := "OR",
        minimum_should_match := MINIMUM_SHOULD_MATCH }) }

/-- The query body built by `ElasticsearchService.es_vector_search`. -/
def es_vector_body (query_embedding : List ℚ) (k : Nat) : QueryBody :=
  { get_base_query_body k with
    knn := some
      { field := "content_vector",
        query_vector := query_embedding,
        k := k,
        num_candidates := DEFAULT_NUM_CANDIDATES } }

/-- The query body built by `ElasticsearchService.es_hybrid_search_bool`: a
bool query whose `should` list holds the same `multi_match` clause as the
text search and a `knn` clause with fixed `k`, wide candidate pool and a
boost. -/
def es_hybrid_body (query : String) (query_embedding : List ℚ) (k : Nat) : QueryBody :=
  { get_base_query_body k with
    query := some (.boolShould
      [ .multiMatch
          { query := query,
            fields :=
              ["title^" ++ toString TITLE_WEIGHT,
               "subject^" ++ toString SUBJECT_WEIGHT,
               "description"],
            matchType := "best_fields",
            op := "OR",
            minimum_should_match := MINIMUM_SHOULD_MATCH },
        .knnClause
          { field := "content_vector",
            query_vector := query_embedding,
            k := HYBRID_KNN_CANDIDATES,
            num_candidates := DEFAULT_NUM_CANDIDATES,
            boost := some HYBRID_BOOST_FACTOR } ]) }

/-! Raw backend responses and the result normalizer
(`ElasticsearchService._execute_search` in `src/app/retriever/search.py`). -/

/-- One element of `response["hits"]["hits"]`: its `_source` field mapping
(an association list of scalars) and its `_score`. -/
structure RawHit where
  source : List (String × JValue)
  score : ℚ
deriving DecidableEq

/-- The part of an Elasticsearch search response the code reads:
`response["hits"]["hits"]`. -/
structure ESResponse where
  hits : List RawHit
deriving DecidableEq

/-- Dict lookup `m[k]` on a `_source` mapping, `none` standing for `KeyError`. -/
def lookupField : List (String × JValue) → String → Option JValue
  | [], _ => none
  | (k, v) :: rest, key => if k = key then some v else lookupField rest key

/-- The per-hit body of the result loop of `_execute_search`, as the
exception-or-document outcome of one iteration:

1. `doc_copy["id"] = str(doc_copy["id"])` — a missing `id` raises `KeyError`;
2. the date block — a string date is run through
   `datetime.fromisoformat(d.replace("Z", "+00:00"))` (the external parser is
   the oracle `isoParses`); on failure the `except` handler substitutes
   `datetime.now()`; a missing `date` raises `KeyError` inside the handler
   itself (the `logger.warning` call re-reads `doc_copy["date"]`), so it
   escapes; a numeric date is left for pydantic to coerce from a timestamp;
3. `doc_copy["similarity_score"] = float(score)`;
4. `Document(**doc_copy)` — pydantic raises `ValidationError` when a required
   field is absent, and coerces scalar values into `str` fields. -/
def normalizeHit (isoParses : String → Bool) (hit : RawHit) : Except PyExn Document :=
  match lookupField hit.source "id" with
  | none => .error (.keyError "id")
  | some idv =>
    match lookupField hit.source "date" with
    | none => .error (.keyError "date")
    | some datev =>
      let dateVal : PyDate :=
        match datev with
        | .str s =>
          let s2 := s.replace "Z" "+00:00"
          if isoParses s2 then .parsed s2 else .now
        | .num q => .fromTimestamp q
      match lookupField hit.source "title" with
      | none => .error .validationError
      | some titlev =>
        match lookupField hit.source "subject" with
        | none => .error .validationError
        | some subjectv =>
          match lookupField hit.source "description" with
          | none => .error .validationError
          | some descriptionv =>
            match lookupField hit.source "link" with
            | none => .error .validationError
            | some linkv =>
              match lookupField hit.source "teaser_image_url" with
              | none => .error .validationError
              | some teaserv =>
                .ok { id := pyStr idv,
                      title := pyStr titlev,
                      subject := pyStr subjectv,
                      description := pyStr descriptionv,
                      link := pyStr linkv,
                      date := dateVal,
                      teaser_image_url := pyStr teaserv,
                      similarity_score := some hit.score }

/-- The whole result loop of `_execute_search`: hits are processed in
response order and the first escaping exception aborts the loop (the
surrounding `try` turns it into an empty result, see `execute_search`). -/
def normalizeHits (isoParses : String → Bool) : List RawHit → Except PyExn (List Document)
  | [] => .ok []
  | hit :: rest =>
    match normalizeHit isoParses hit with
    | .error e => .error e
    | .ok doc =>
      match normalizeHits isoParses rest with
      | .error e => .error e
      | .ok docs => .ok (doc :: docs)

/-- The external collaborators of `ElasticsearchService` and the dispatcher,
fixed for the duration of one request:

* `client` — `self.es_client`: `none` when the startup connectivity probe
  failed (then `is_ready()` is false), otherwise the search operation itself,
  which either returns a raw response or raises;
* `encode` — `self.model.encode` of the sentence-transformer model, which
  either returns an embedding vector or raises;
* `isoParses` — whether `datetime.fromisoformat` accepts a given string;
* `execMs` — the duration the monotonic clock measures for the request. -/
structure Env where
  client : Option (QueryBody → Except Unit ESResponse)
  encode : String → Except Unit (List ℚ)
  isoParses : String → Bool
  execMs : ℚ

/-- Model of `ElasticsearchService.is_ready`: the client survived the startup probe. -/
def is_ready (env : Env) : Bool := env.client.isSome

/-- Model of `ElasticsearchService._execute_search`: returns `[]` when the client is
absent, and the whole body — the backend call and the result loop — sits in
one `try` whose `except Exception` returns `[]`. -/
def execute_search (env : Env) (query_body : QueryBody) : List Document :=
  match env.client with
  | none => []
  | some search =>
    match search query_body with
    | .error _ => []
    | .ok response =>
      match normalizeHits env.isoParses response.hits with
      | .error _ => []
      | .ok results => results

/-- Model of `ElasticsearchService.es_text_search`. -/
def es_text_search (env : Env) (query : String) (k : Nat) : List Document :=
  execute_search env (es_text_body query k)

/-- Model of `ElasticsearchService.es_vector_search`. -/
def es_vector_search (env : Env) (query_embedding : List ℚ) (k : Nat) : List Document :=
  execute_search env (es_vector_body query_embedding k)

/-- Model of `ElasticsearchService.es_hybrid_search_bool`. -/
def es_hybrid_search_bool (env : Env) (query : String) (query_embedding : List ℚ)
    (k : Nat) : List Document :=
  execute_search env (es_hybrid_body query query_embedding k)

/-- Model of `EmbeddingService.encode_query` from `src/app/retriever/embedding.py`:
rejects an empty or whitespace-only query, otherwise calls the model and
re-signals any model failure as `EmbeddingGenerationError`. -/
def encode_query (env : Env) (query : String) : Except AppError (List ℚ) :=
  if query = "" ∨ pyStrip query = "" then .error .embeddingGeneration
  else
    match env.encode query with
    | .ok v => .ok v
    | .error _ => .error .embeddingGeneration

/-- The `forward_context` handler of `src/app/server.py`, paired with a flag
recording whether `embedding_service.encode_query` was invoked during the
request.  The guards appear in source order: trimmed-empty query, then
search-type membership, then backend readiness.  The embedding is generated
unconditionally after the guards — before the strategy branch, for all three
search types.  The strategy calls are total (`execute_search` catches every
exception), so the `except` that would re-raise `ElasticsearchQueryError`
around them can never fire and has no reachable counterpart here. -/
def forward_context (env : Env) (request : QueryRequest) :
    Except AppError QueryResponse × Bool :=
  if pyStrip request.query = "" then
    (.error .emptyQuery, false)
  else if request.search_type ∉ SEARCH_TYPES_KEYS then
    (.error (.invalidSearchType request.search_type SEARCH_TYPES_KEYS), false)
  else if ¬ is_ready env then
    (.error .elasticsearchConnection, false)
  else
    match encode_query env request.query with
    | .error _ => (.error .embeddingGeneration, true)
    | .ok query_embedding =>
      let results :=
        if request.search_type = SEARCH_TYPE_SEMANTIC then
          es_vector_search env query_embedding request.limit
        else if request.search_type = SEARCH_TYPE_KEYWORD then
          es_text_search env request.query request.limit
        else
          es_hybrid_search_bool env request.query query_embedding request.limit
      (.ok { results := results,
             query := request.query,
             search_type := request.search_type,
             search_engine := "elasticsearch",
             timestamp := .now,
             execution_time_ms := env.execMs }, true)

/-! Concrete fixtures used to instantiate the theorems below. -/

/-- A ready backend that returns zero hits, with a succeeding embedding model. -/
def envOkEmpty : Env :=
  { client := some (fun _ => .ok { hits := [] }),
    encode := fun _ => .ok [],
    isoParses := fun _ => false,
    execMs := 0 }

/-- The environment `envOkEmpty` with the embedding model replaced by one that always raises:
the two environments differ only in the embedding provider's behaviour. -/
def envEmbedFail : Env :=
  { envOkEmpty with encode := fun _ => .error () }

/-- A ready backend whose search call always raises. -/
def envRaise : Env :=
  { client := some (fun _ => .error ()),
    encode := fun _ => .ok [],
    isoParses := fun _ => false,
    execMs := 0 }

/-- A service whose startup probe failed: `es_client is None`, so
`is_ready()` is false. -/
def envNoClient : Env :=
  { client := none,
    encode := fun _ => .ok [],
    isoParses := fun _ => false,
    execMs := 0 }

/-- A well-formed hit whose backend-stored `id` is an integer and whose
`date` is the unparseable string `"not-a-date"`. -/
def hitNum : RawHit :=
  { source :=
      [("id", .num 42), ("title", .str "t"), ("subject", .str "s"),
       ("description", .str "d"), ("date", .str "not-a-date"),
       ("link", .str "l"), ("teaser_image_url", .str "u")],
    score := 3 }

/-- A hit with every required field except `link`. -/
def hitNoLink : RawHit :=
  { source :=
      [("id", .str "1"), ("title", .str "t"), ("subject", .str "s"),
       ("description", .str "d"), ("date", .str "2024-01-01"),
       ("teaser_image_url", .str "u")],
    score := 1 }

/-- The document the normalizer produces from `hitNum` when date parsing
fails: a stringified id, the substituted date, the score attached. -/
def docNum : Document :=
  { id := "42", title := "t", subject := "s", description := "d",
    link := "l", date := .now, teaser_image_url := "u",
    similarity_score := some 3 }

/-- A ready backend returning exactly the hit `hitNum`, whose date parser
rejects every string. -/
def envOneHit : Env :=
  { client := some (fun _ => .ok { hits := [hitNum] }),
    encode := fun _ => .ok [],
    isoParses := fun _ => false,
    execMs := 0 }

/-- A ready backend returning exactly the malformed hit `hitNoLink`. -/
def envBadHit : Env :=
  { client := some (fun _ => .ok { hits := [hitNoLink] }),
    encode := fun _ => .ok [],
    isoParses := fun _ => false,
    execMs := 0 }

/-- The keyword request used by several witnesses. -/
def reqKeyword : QueryRequest :=
  { query := "q", limit := 5, search_type := SEARCH_TYPE_KEYWORD }

/-! Helper lemmas shared by the claim theorems. -/

lemma pyStrip_empty : pyStrip "" = "" := rfl

lemma mem_search_types_iff (s : String) :
    s ∈ SEARCH_TYPES_KEYS ↔
      s = SEARCH_TYPE_SEMANTIC ∨ s = SEARCH_TYPE_KEYWORD ∨ s = SEARCH_TYPE_HYBRID := by
  simp [SEARCH_TYPES_KEYS]

lemma encode_query_ok (env : Env) (q : String) (v : List ℚ)
    (hq : pyStrip q ≠ "") (hv : env.encode q = .ok v) :
    encode_query env q = .ok v := by
  have hq0 : q ≠ "" := fun h => hq (by rw [h]; exact pyStrip_empty)
  simp [encode_query, hq0, hq, hv]

/-- Dispatch helper: when the three validation guards of `forward_context`
all pass, control reaches the embedding step and then the strategy branch. -/
lemma forward_context_validated (env : Env) (req : QueryRequest)
    (hq : pyStrip req.query ≠ "") (hmem : req.search_type ∈ SEARCH_TYPES_KEYS)
    (hready : is_ready env = true) :
    forward_context env req =
      (match encode_query env req.query with
       | .error _ => (.error .embeddingGeneration, true)
       | .ok query_embedding =>
         let results :=
           if req.search_type = SEARCH_TYPE_SEMANTIC then
             es_vector_search env query_embedding req.limit
           else if req.search_type = SEARCH_TYPE_KEYWORD then
             es_text_search env req.query req.limit
           else
             es_hybrid_search_bool env req.query query_embedding req.limit
         (.ok { results := results,
                query := req.query,
                search_type := req.search_type,
                search_engine := "elasticsearch",
                timestamp := .now,
                execution_time_ms := env.execMs }, true)) := by
  simp [forward_context, hq, hmem, hready]

/-- C4: for every hybrid request, the query plan handed to the backend is a
bool query whose should-list has exactly two clauses — a `multi_match` over
`title^3`, `subject^2` and `description` with `OR` operator and `50%`
minimum-should-match, and a `knn` clause over `content_vector` with fixed
`k = 50` (independent of the requested limit), `num_candidates = 100` and
`boost = 2.0` — while the plan's outer `size` equals the requested limit;
and the hybrid strategy executes exactly this plan. -/
theorem c4_hybrid_plan_shape (q : String) (emb : List ℚ) (k : Nat) (env : Env) :
    es_hybrid_body q emb k =
      { source_fields :=
          ["id", "title", "subject", "description", "link", "date", "teaser_image_url"],
        size := k,
        query := some (.boolShould
          [ .multiMatch
              { query := q,
                fields := ["title^3", "subject^2", "description"],
                matchType := "best_fields",
                op := "OR",
                minimum_should_match := "50%" },
            .knnClause
              { field := "content_vector",
                query_vector := emb,
                k := 50,
                num_candidates := 100,
                boost := some 2 } ]),
        knn := none } ∧
    es_hybrid_search_bool env q emb k = execute_search env (es_hybrid_body q emb k) := by
  exact ⟨rfl, rfl⟩

/-- C5: for every request with a non-whitespace query and a valid
search type, an unready backend makes dispatch fail with
`ElasticsearchConnectionError` (the spec's `BackendUnavailableError`) for
every strategy, with the embedding provider never invoked (the invocation
flag is `false`). -/
theorem c5_unready_backend_no_embedding (env : Env) (req : QueryRequest)
    (hq : pyStrip req.query ≠ "") (hmem : req.search_type ∈ SEARCH_TYPES_KEYS)
    (hready : is_ready env = false) :
    forward_context env req = (.error .elasticsearchConnection, false) := by
  simp [forward_context, hq, hmem, hready]

/-- Witness for C5 at a concrete unready environment and a hybrid request. -/
theorem c5_unready_backend_no_embedding_witness :
    forward_context envNoClient { query := "q", limit := 5, search_type := "hybrid" } =
      (.error .elasticsearchConnection, false) :=
  c5_unready_backend_no_embedding envNoClient _ (by decide) (by decide) (by decide)

/-- C6: every request whose query trims to the empty string is rejected with
`EmptyQueryError` regardless of the strategy (and before the embedding
provider could be invoked). -/
theorem c6_whitespace_query_empty_error (env : Env) (req : QueryRequest)
    (hq : pyStrip req.query = "") :
    forward_context env req = (.error .emptyQuery, false) := by
  simp [forward_context, hq]

/-- Witness for C6: a one-space query of length 1 — which satisfies the
pydantic `min_length = 1` constraint — is rejected with `EmptyQueryError`,
here under the `semantic` strategy on a ready backend. -/
theorem c6_whitespace_query_empty_error_witness :
    QueryRequest.fieldConstraintsOk { query := " ", limit := 5, search_type := "semantic" } ∧
    forward_context envOkEmpty { query := " ", limit := 5, search_type := "semantic" } =
      (.error .emptyQuery, false) :=
  ⟨by decide, c6_whitespace_query_empty_error envOkEmpty _ (by decide)⟩

/-- C10: the validation guards of `forward_context` are decided in a fixed
order — whitespace-only query first (`EmptyQueryError`), then search-type
membership (`InvalidSearchTypeError` carrying the offending value and the
three valid values), then backend readiness (`ElasticsearchConnectionError`)
— so whichever earlier condition holds decides the outcome even when the
later ones hold as well. -/
theorem c10_validation_precedence (env : Env) (req : QueryRequest) :
    (pyStrip req.query = "" →
      forward_context env req = (.error .emptyQuery, false)) ∧
    (pyStrip req.query ≠ "" → req.search_type ∉ SEARCH_TYPES_KEYS →
      forward_context env req =
        (.error (.invalidSearchType req.search_type SEARCH_TYPES_KEYS), false)) ∧
    (pyStrip req.query ≠ "" → req.search_type ∈ SEARCH_TYPES_KEYS →
      is_ready env = false →
      forward_context env req = (.error .elasticsearchConnection, false)) := by
  refine ⟨fun hq => ?_, fun hq hmem => ?_, fun hq hmem hready => ?_⟩
  · simp [forward_context, hq]
  · simp [forward_context, hq, hmem]
  · simp [forward_context, hq, hmem, hready]

/-- Witness for C10: with an unready backend throughout, a whitespace query
with a bogus search type yields `EmptyQueryError`; a non-empty query with a
bogus search type yields `InvalidSearchTypeError` with the offending value
and the three valid values; a non-empty hybrid request yields
`ElasticsearchConnectionError`. -/
theorem c10_validation_precedence_witness :
    forward_context envNoClient { query := " ", limit := 5, search_type := "bogus" } =
      (.error .emptyQuery, false) ∧
    forward_context envNoClient { query := "q", limit := 5, search_type := "bogus" } =
      (.error (.invalidSearchType "bogus" ["semantic", "keyword", "hybrid"]), false) ∧
    forward_context envNoClient { query := "q", limit := 5, search_type := "hybrid" } =
      (.error .elasticsearchConnection, false) :=
  ⟨(c10_validation_precedence envNoClient _).1 (by decide),
   (c10_validation_precedence envNoClient _).2.1 (by decide) (by decide),
   (c10_validation_precedence envNoClient _).2.2 (by decide) (by decide) (by decide)⟩

/-- C1 counterexample: two environments that differ only in the embedding
provider (one always succeeds, one always raises) give different outcomes for
the same keyword request with a non-empty query on a ready backend — the
failing provider turns the keyword request into `EmbeddingGenerationError` —
and the provider invocation flag is `true` on the keyword path. -/
theorem c1_counterexample :
    envEmbedFail = { envOkEmpty with encode := fun _ => .error () } ∧
    forward_context envOkEmpty reqKeyword ≠ forward_context envEmbedFail reqKeyword ∧
    (forward_context envOkEmpty reqKeyword).2 = true ∧
    (forward_context envEmbedFail reqKeyword).1 = .error .embeddingGeneration :=
  ⟨rfl, by decide, by decide, by decide⟩

/-- C1 as amended: the dispatcher invokes the embedding provider for the
keyword strategy as well, but the embedding's value never influences the
keyword response — two runs whose providers both succeed on the query
(with possibly different vectors) produce identical keyword responses, and
on a validated ready request the invocation flag is `true`. -/
theorem c1_keyword_embedding_invoked_value_unused (env : Env)
    (e₁ e₂ : String → Except Unit (List ℚ)) (req : QueryRequest)
    (hst : req.search_type = SEARCH_TYPE_KEYWORD)
    (h₁ : ∃ v, e₁ req.query = .ok v) (h₂ : ∃ v, e₂ req.query = .ok v) :
    forward_context { env with encode := e₁ } req =
      forward_context { env with encode := e₂ } req ∧
    (pyStrip req.query ≠ "" → is_ready env = true →
      (forward_context { env with encode := e₁ } req).2 = true) := by
  obtain ⟨v₁, h₁⟩ := h₁
  obtain ⟨v₂, h₂⟩ := h₂
  have hm : req.search_type ∈ SEARCH_TYPES_KEYS := by
    rw [mem_search_types_iff]; exact Or.inr (Or.inl hst)
  by_cases hq : pyStrip req.query = ""
  · exact ⟨by simp [forward_context, hq], fun hq2 _ => absurd hq hq2⟩
  · by_cases hr : is_ready env = true
    · have henc₁ : encode_query { env with encode := e₁ } req.query = .ok v₁ :=
        encode_query_ok _ _ _ hq h₁
      have henc₂ : encode_query { env with encode := e₂ } req.query = .ok v₂ :=
        encode_query_ok _ _ _ hq h₂
      constructor
      · rw [forward_context_validated { env with encode := e₁ } req hq hm hr,
            forward_context_validated { env with encode := e₂ } req hq hm hr]
        simp [henc₁, henc₂, hst, SEARCH_TYPE_KEYWORD, SEARCH_TYPE_SEMANTIC]
        rfl
      · intro _ _
        rw [forward_context_validated { env with encode := e₁ } req hq hm hr]
        simp [henc₁]
    · have hr' : is_ready env = false := by
        cases h : is_ready env with
        | false => rfl
        | true => exact absurd h hr
      constructor
      · simp [forward_context, hq, hm, is_ready] at *
        simp [forward_context, hq, hm, hr']
      · intro _ hcontr
        rw [hr'] at hcontr
        cases hcontr

/-- Witness for the amended C1: on a ready empty backend, replacing a
provider that returns `[1]` by one that returns `[2]` leaves the keyword
response unchanged, and the provider is invoked. -/
theorem c1_keyword_embedding_invoked_value_unused_witness :
    forward_context { envOkEmpty with encode := fun _ => .ok [1] } reqKeyword =
      forward_context { envOkEmpty with encode := fun _ => .ok [2] } reqKeyword ∧
    (forward_context { envOkEmpty with encode := fun _ => .ok [1] } reqKeyword).2 = true :=
  ⟨(c1_keyword_embedding_invoked_value_unused envOkEmpty (fun _ => .ok [1])
      (fun _ => .ok [2]) reqKeyword rfl ⟨[1], rfl⟩ ⟨[2], rfl⟩).1,
   (c1_keyword_embedding_invoked_value_unused envOkEmpty (fun _ => .ok [1])
      (fun _ => .ok [2]) reqKeyword rfl ⟨[1], rfl⟩ ⟨[2], rfl⟩).2 (by decide) (by decide)⟩

/-- C2 counterexample: with a ready backend whose search call always raises,
a validated keyword request produces a successful response with zero results
— the backend exception is not re-signaled as `ElasticsearchQueryError`
(the spec's `BackendQueryError`); it is silently converted into a success. -/
theorem c2_counterexample :
    forward_context envRaise reqKeyword =
      (.ok { results := [], query := "q", search_type := "keyword",
             search_engine := "elasticsearch", timestamp := .now,
             execution_time_ms := 0 }, true) ∧
    (forward_context envRaise reqKeyword).1 ≠ .error .elasticsearchQuery := by
  decide

/-- C2 as amended: any exception raised by the backend during query
execution is caught inside `_execute_search` and converted into an empty
result list, so the dispatcher returns a successful response with zero
results for every strategy; no raw backend exception propagates, and the
`ElasticsearchQueryError` re-signal in the dispatcher is never exercised by
a backend exception. -/
theorem c2_backend_exception_to_empty_success (env : Env) (req : QueryRequest)
    (f : QueryBody → Except Unit ESResponse)
    (hf : env.client = some f) (hraise : ∀ b, f b = .error ())
    (hq : pyStrip req.query ≠ "") (hmem : req.search_type ∈ SEARCH_TYPES_KEYS)
    (henc : ∃ v, env.encode req.query = .ok v) :
    forward_context env req =
      (.ok { results := [], query := req.query, search_type := req.search_type,
             search_engine := "elasticsearch", timestamp := .now,
             execution_time_ms := env.execMs }, true) := by
  obtain ⟨v, hv⟩ := henc
  have hready : is_ready env = true := by simp [is_ready, hf]
  rw [forward_context_validated env req hq hmem hready,
      encode_query_ok env req.query v hq hv]
  have hexec : ∀ b, execute_search env b = [] := by
    intro b; simp [execute_search, hf, hraise b]
  rcases (mem_search_types_iff _).mp hmem with h | h | h <;>
    simp [h, SEARCH_TYPE_SEMANTIC, SEARCH_TYPE_KEYWORD, SEARCH_TYPE_HYBRID,
          es_vector_search, es_text_search, es_hybrid_search_bool, hexec]

/-- Witness for the amended C2 at the concrete always-raising backend. -/
theorem c2_backend_exception_to_empty_success_witness :
    forward_context envRaise reqKeyword =
      (.ok { results := [], query := "q", search_type := "keyword",
             search_engine := "elasticsearch", timestamp := .now,
             execution_time_ms := 0 }, true) :=
  c2_backend_exception_to_empty_success envRaise reqKeyword (fun _ => .error ())
    rfl (fun _ => rfl) (by decide) (by decide) ⟨[], rfl⟩

/-- Normalizer helper: a successfully normalized hit has a stringified id
taken from the hit's `id` field and carries the hit's score. -/
lemma normalizeHit_ok_fields (iso : String → Bool) (hit : RawHit) (doc : Document)
    (h : normalizeHit iso hit = .ok doc) :
    (∃ idv, lookupField hit.source "id" = some idv ∧ doc.id = pyStr idv) ∧
    doc.similarity_score = some hit.score := by
  unfold normalizeHit at h
  cases hid : lookupField hit.source "id" with
  | none => simp [hid] at h
  | some idv =>
    simp only [hid] at h
    cases hdate : lookupField hit.source "date" with
    | none => simp [hdate] at h
    | some datev =>
      simp only [hdate] at h
      cases ht : lookupField hit.source "title" with
      | none => simp [ht] at h
      | some titlev =>
        simp only [ht] at h
        cases hs : lookupField hit.source "subject" with
        | none => simp [hs] at h
        | some subjectv =>
          simp only [hs] at h
          cases hd : lookupField hit.source "description" with
          | none => simp [hd] at h
          | some descriptionv =>
            simp only [hd] at h
            cases hl : lookupField hit.source "link" with
            | none => simp [hl] at h
            | some linkv =>
              simp only [hl] at h
              cases hu : lookupField hit.source "teaser_image_url" with
              | none => simp [hu] at h
              | some teaserv =>
                simp only [hu] at h
                injection h with h
                subst h
                exact ⟨⟨idv, rfl, rfl⟩, rfl⟩

/-- Normalizer helper: every document of a successfully normalized hit list
comes from normalizing one of its hits. -/
lemma normalizeHits_ok_mem (iso : String → Bool) :
    ∀ (hits : List RawHit) (docs : List Document) (doc : Document),
      normalizeHits iso hits = .ok docs → doc ∈ docs →
      ∃ hit, hit ∈ hits ∧ normalizeHit iso hit = .ok doc := by
  intro hits
  induction hits with
  | nil =>
    intro docs doc h hmem
    simp only [normalizeHits] at h
    injection h with h
    subst h
    simp at hmem
  | cons hit rest ih =>
    intro docs doc h hmem
    simp only [normalizeHits] at h
    cases h1 : normalizeHit iso hit with
    | error e => simp [h1] at h
    | ok d =>
      simp only [h1] at h
      cases h2 : normalizeHits iso rest with
      | error e => simp [h2] at h
      | ok ds =>
        simp only [h2] at h
        injection h with h
        subst h
        rcases List.mem_cons.mp hmem with rfl | hmem2
        · exact ⟨hit, List.mem_cons_self _ _, h1⟩
        · obtain ⟨hit2, hmm, hok⟩ := ih ds doc h2 hmem2
          exact ⟨hit2, List.mem_cons_of_mem _ hmm, hok⟩

/-- Normalizer helper: one failing hit anywhere in the list makes the whole
normalization loop fail (with the first escaping exception). -/
lemma normalizeHits_error_of_mem (iso : String → Bool) :
    ∀ (hits : List RawHit) (hit : RawHit) (e : PyExn),
      hit ∈ hits → normalizeHit iso hit = .error e →
      ∃ e2, normalizeHits iso hits = .error e2 := by
  intro hits
  induction hits with
  | nil => intro hit e hmem _; simp at hmem
  | cons h0 rest ih =>
    intro hit e hmem herr
    rcases List.mem_cons.mp hmem with rfl | hmem2
    · exact ⟨e, by simp [normalizeHits, herr]⟩
    · cases h1 : normalizeHit iso h0 with
      | error e0 => exact ⟨e0, by simp [normalizeHits, h1]⟩
      | ok d =>
        obtain ⟨e2, h2⟩ := ih hit e hmem2 herr
        exact ⟨e2, by simp [normalizeHits, h1, h2]⟩

/-- C3 counterexample: normalizing a hit with every required field except
`link` — in particular constructing the `Document` from it — fails with
pydantic's `ValidationError`, not with `DataConversionError` as the claim
states (`DataConversionError` is declared in `src/app/errors.py` and never
raised anywhere). -/
theorem c3_counterexample :
    normalizeHit (fun _ => true) hitNoLink = .error .validationError ∧
    normalizeHit (fun _ => true) hitNoLink ≠ .error (.appError .dataConversion) := by
  decide

/-- C3 as amended: constructing a Document from a raw hit that is missing
the `link` field does fail for that hit, but with a `KeyError` or pydantic
`ValidationError` — never with `DataConversionError`. -/
theorem c3_missing_link_fails_not_data_conversion (iso : String → Bool) (hit : RawHit)
    (hlink : lookupField hit.source "link" = none) :
    ∃ e, normalizeHit iso hit = .error e ∧ e ≠ .appError .dataConversion := by
  cases hid : lookupField hit.source "id" with
  | none => exact ⟨.keyError "id", by simp [normalizeHit, hid], by simp⟩
  | some idv =>
    cases hdate : lookupField hit.source "date" with
    | none => exact ⟨.keyError "date", by simp [normalizeHit, hid, hdate], by simp⟩
    | some datev =>
      cases ht : lookupField hit.source "title" with
      | none =>
        exact ⟨.validationError, by simp [normalizeHit, hid, hdate, ht], by simp⟩
      | some titlev =>
        cases hs : lookupField hit.source "subject" with
        | none =>
          exact ⟨.validationError, by simp [normalizeHit, hid, hdate, ht, hs], by simp⟩
        | some subjectv =>
          cases hd : lookupField hit.source "description" with
          | none =>
            exact ⟨.validationError,
              by simp [normalizeHit, hid, hdate, ht, hs, hd], by simp⟩
          | some descriptionv =>
            exact ⟨.validationError,
              by simp [normalizeHit, hid, hdate, ht, hs, hd, hlink], by simp⟩

/-- Witness for the amended C3 at the concrete hit missing `link`. -/
theorem c3_missing_link_fails_not_data_conversion_witness :
    ∃ e, normalizeHit (fun _ => true) hitNoLink = .error e ∧
      e ≠ .appError .dataConversion :=
  c3_missing_link_fails_not_data_conversion (fun _ => true) hitNoLink (by decide)

/-- C7: every document produced by result normalization — for any query body
and hence for every strategy — has its `id` equal to the string conversion
of the originating hit's `id` field and its `similarity_score` present,
equal to that hit's relevance score. -/
theorem c7_document_id_string_score_present (env : Env) (body : QueryBody)
    (doc : Document) (hmem : doc ∈ execute_search env body) :
    ∃ f response hit, env.client = some f ∧ f body = .ok response ∧
      hit ∈ response.hits ∧
      (∃ idv, lookupField hit.source "id" = some idv ∧ doc.id = pyStr idv) ∧
      doc.similarity_score = some hit.score := by
  unfold execute_search at hmem
  cases hc : env.client with
  | none => simp only [hc] at hmem; simp at hmem
  | some f =>
    simp only [hc] at hmem
    cases hs : f body with
    | error u => simp only [hs] at hmem; simp at hmem
    | ok response =>
      simp only [hs] at hmem
      cases hn : normalizeHits env.isoParses response.hits with
      | error e => simp only [hn] at hmem; simp at hmem
      | ok docs =>
        simp only [hn] at hmem
        obtain ⟨hit, hhit, hok⟩ :=
          normalizeHits_ok_mem env.isoParses response.hits docs doc hn hmem
        obtain ⟨hidp, hscore⟩ := normalizeHit_ok_fields env.isoParses hit doc hok
        exact ⟨f, response, hit, rfl, hs, hhit, hidp, hscore⟩

/-- Witness for C7: the backend stores the integer id `42`; the produced
document is `docNum`, whose id is the string `"42"` and whose
`similarity_score` is present. -/
theorem c7_document_id_string_score_present_witness :
    docNum ∈ execute_search envOneHit (es_text_body "q" 2) ∧
    ∃ f response hit, envOneHit.client = some f ∧
      f (es_text_body "q" 2) = .ok response ∧ hit ∈ response.hits ∧
      (∃ idv, lookupField hit.source "id" = some idv ∧ docNum.id = pyStr idv) ∧
      docNum.similarity_score = some hit.score :=
  ⟨by decide,
   c7_document_id_string_score_present envOneHit (es_text_body "q" 2) docNum (by decide)⟩

/-- C8: normalizing a hit whose `date` field is a string the ISO parser
rejects succeeds: the produced document's date is substituted with the
current time while every other field is taken from the hit (the id via the
same string conversion, the score attached as usual). -/
theorem c8_unparseable_date_substituted_now (iso : String → Bool) (hit : RawHit)
    (s : String) (idv titlev subjectv descriptionv linkv teaserv : JValue)
    (hid : lookupField hit.source "id" = some idv)
    (hdate : lookupField hit.source "date" = some (.str s))
    (hiso : iso (s.replace "Z" "+00:00") = false)
    (ht : lookupField hit.source "title" = some titlev)
    (hsub : lookupField hit.source "subject" = some subjectv)
    (hdesc : lookupField hit.source "description" = some descriptionv)
    (hlink : lookupField hit.source "link" = some linkv)
    (hteaser : lookupField hit.source "teaser_image_url" = some teaserv) :
    normalizeHit iso hit =
      .ok { id := pyStr idv, title := pyStr titlev, subject := pyStr subjectv,
            description := pyStr descriptionv, link := pyStr linkv,
            date := .now, teaser_image_url := pyStr teaserv,
            similarity_score := some hit.score } := by
  simp [normalizeHit, hid, hdate, hiso, ht, hsub, hdesc, hlink, hteaser]

/-- Witness for C8: the hit with `date = "not-a-date"` (and an integer id)
normalizes to `docNum`, whose date is the substituted current time. -/
theorem c8_unparseable_date_substituted_now_witness :
    normalizeHit (fun _ => false) hitNum = .ok docNum :=
  c8_unparseable_date_substituted_now (fun _ => false) hitNum "not-a-date"
    (.num 42) (.str "t") (.str "s") (.str "d") (.str "l") (.str "u")
    (by decide) (by decide) rfl (by decide) (by decide) (by decide) (by decide) (by decide)

/-- C9: `_execute_search` is total and never raises — it returns `[]` when
the client is absent, when the backend call raises, or when any hit of the
response fails to normalize (one malformed hit discards the whole response),
and returns the normalized documents otherwise; the three strategy entry
points are exactly `_execute_search` applied to their query bodies. -/
theorem c9_execute_search_total_empty_on_fault (env : Env) (body : QueryBody) :
    (env.client = none → execute_search env body = []) ∧
    (∀ f, env.client = some f → f body = .error () → execute_search env body = []) ∧
    (∀ f response e, env.client = some f → f body = .ok response →
      normalizeHits env.isoParses response.hits = .error e →
      execute_search env body = []) ∧
    (∀ f response docs, env.client = some f → f body = .ok response →
      normalizeHits env.isoParses response.hits = .ok docs →
      execute_search env body = docs) ∧
    (∀ (response : ESResponse) (hit : RawHit) (e : PyExn), hit ∈ response.hits →
      normalizeHit env.isoParses hit = .error e →
      ∃ e2, normalizeHits env.isoParses response.hits = .error e2) ∧
    (∀ q k, es_text_search env q k = execute_search env (es_text_body q k)) ∧
    (∀ emb k, es_vector_search env emb k = execute_search env (es_vector_body emb k)) ∧
    (∀ q emb k, es_hybrid_search_bool env q emb k =
      execute_search env (es_hybrid_body q emb k)) := by
  refine ⟨fun hc => by simp [execute_search, hc],
          fun f hc hb => by simp [execute_search, hc, hb],
          fun f response e hc hb hn => by simp [execute_search, hc, hb, hn],
          fun f response docs hc hb hn => by simp [execute_search, hc, hb, hn],
          fun response hit e hmem herr =>
            normalizeHits_error_of_mem env.isoParses response.hits hit e hmem herr,
          fun q k => rfl, fun emb k => rfl, fun q emb k => rfl⟩

/-- Witness for C9: the empty list comes back when the client is absent,
when the backend raises, and when the single returned hit is missing its
required `link` field. -/
theorem c9_execute_search_total_empty_on_fault_witness :
    execute_search envNoClient (es_text_body "q" 1) = [] ∧
    execute_search envRaise (es_text_body "q" 1) = [] ∧
    execute_search envBadHit (es_text_body "q" 1) = [] :=
  ⟨(c9_execute_search_total_empty_on_fault envNoClient (es_text_body "q" 1)).1 rfl,
   (c9_execute_search_total_empty_on_fault envRaise (es_text_body "q" 1)).2.1
     (fun _ => .error ()) rfl rfl,
   (c9_execute_search_total_empty_on_fault envBadHit (es_text_body "q" 1)).2.2.1
     (fun _ => .ok { hits := [hitNoLink] }) { hits := [hitNoLink] }
     .validationError rfl rfl (by decide)⟩

end Statista
